import Mathlib

/-!
A shallow embedding of `hyper-timeout-connector` (`src/lib.rs`) and proofs
about its dial algorithm.

The crate's only component is `HttpTimeoutConnector`, a struct holding an
optional connect timeout.  Its `connect` method validates the scheme,
resolves `(host, port)` to a list of socket addresses, and tries each
address in order: `connect_once` creates a socket of the matching address
family and performs either a bounded (`connect_timeout`) or an unbounded
(`connect`) transport connect.  The first success is returned wrapped as an
`HttpStream`; if every attempt fails the last error is surfaced, and an
empty resolution yields a dedicated InvalidInput error.

The external collaborators (the system resolver `to_socket_addrs`, the
`socket2` socket constructor and its two connect operations) are modelled
as an explicit environment `Env` of pure functions.  Every operation also
returns the trace of collaborator calls it performed, so that claims about
which collaborator was or was not invoked are statable, and threads the
connector state through explicitly, so that frame claims are statable.
-/

/-- `std::time::Duration`, abstract: the dialer never inspects it. -/
abbrev Duration := Nat

/-- `std::io::ErrorKind`: the kinds the crate's code and tests mention,
plus an opaque catch-all for any other kind the environment produces. -/
inductive ErrorKind
  | invalidInput
  | timedOut
  | connectionRefused
  | otherKind (code : Nat)
  deriving DecidableEq

/-- `std::io::Error`: an error kind together with its message. -/
structure IoError where
  kind : ErrorKind
  msg : String
  deriving DecidableEq

/-- `hyper::Error`: the connector only ever produces the `Io` variant,
reached from `io::Error` via `.into()`. -/
inductive HyperError
  | ioError (e : IoError)
  deriving DecidableEq

/-- `std::net::SocketAddr`: an IPv4 or IPv6 address.  The payload is
abstracted to an identifier; the dialer never inspects it beyond the
address family. -/
inductive SocketAddr
  | V4 (a : Nat)
  | V6 (a : Nat)
  deriving DecidableEq

/-- `socket2::Domain`: the socket address family. -/
inductive Domain
  | ipv4
  | ipv6
  deriving DecidableEq

/-- `socket2::Socket`: an abstract socket handle. -/
structure Socket where
  fd : Nat
  deriving DecidableEq

/-- `std::net::TcpStream`, the result of converting a connected socket. -/
structure TcpStream where
  sock : Socket
  deriving DecidableEq

/-- `socket.into()`: `socket2::Socket` converts into `TcpStream`. -/
def Socket.into (s : Socket) : TcpStream := ⟨s⟩

/-- `hyper::net::HttpStream`, a newtype over `TcpStream`. -/
structure HttpStream where
  stream : TcpStream
  deriving DecidableEq

/-- The `HttpTimeoutConnector` struct: its one field is the optional
connection timeout. -/
structure HttpTimeoutConnector where
  connect_timeout : Option Duration
  deriving DecidableEq

/-- `HttpTimeoutConnector::new`: the connector initially has no
connection timeout. -/
def HttpTimeoutConnector.new : HttpTimeoutConnector := ⟨none⟩

/-- `HttpTimeoutConnector::set_connect_timeout`. -/
def HttpTimeoutConnector.set_connect_timeout (self : HttpTimeoutConnector)
    (timeout : Option Duration) : HttpTimeoutConnector :=
  { self with connect_timeout := timeout }

/-- A collaborator call made during `connect`: a resolver lookup, a socket
creation, a bounded connect, or an unbounded connect. -/
inductive Event
  | resolve (host : String) (port : Nat)
  | socketNew (domain : Domain)
  | connectTimeout (sock : Socket) (addr : SocketAddr) (timeout : Duration)
  | connectPlain (sock : Socket) (addr : SocketAddr)
  deriving DecidableEq

/-- The external collaborators: the system resolver
(`(host, port).to_socket_addrs()`), `Socket::new`, and the two connect
operations of `socket2::Socket`. -/
structure Env where
  toSocketAddrs : String → Nat → Except IoError (List SocketAddr)
  socketNew : Domain → Except IoError Socket
  connectTimeout : Socket → SocketAddr → Duration → Except IoError Unit
  connectPlain : Socket → SocketAddr → Except IoError Unit

/-- Result of an embedded operation: its value, the trace of collaborator
calls it performed, and the connector state it finished with. -/
structure MRes (α : Type) where
  res : α
  trace : List Event
  state : HttpTimeoutConnector
  deriving DecidableEq

/-- The `let domain = match addr { V4 => ipv4, V6 => ipv6 }` at the top of
`connect_once`. -/
def domainOf : SocketAddr → Domain
  | .V4 _ => .ipv4
  | .V6 _ => .ipv6

/-- `HttpTimeoutConnector::connect_once`: create a socket of the address
family implied by `addr`, then connect — bounded by `connect_timeout` when
one is configured, unbounded otherwise — and convert the connected socket
into a `TcpStream`. -/
def HttpTimeoutConnector.connect_once (env : Env) (self : HttpTimeoutConnector)
    (addr : SocketAddr) : MRes (Except IoError TcpStream) :=
  match env.socketNew (domainOf addr) with
  | .error e => ⟨.error e, [.socketNew (domainOf addr)], self⟩
  | .ok socket =>
    match self.connect_timeout with
    | some timeout =>
      match env.connectTimeout socket addr timeout with
      | .error e =>
        ⟨.error e, [.socketNew (domainOf addr), .connectTimeout socket addr timeout], self⟩
      | .ok _ =>
        ⟨.ok socket.into, [.socketNew (domainOf addr), .connectTimeout socket addr timeout],
          self⟩
    | none =>
      match env.connectPlain socket addr with
      | .error e => ⟨.error e, [.socketNew (domainOf addr), .connectPlain socket addr], self⟩
      | .ok _ =>
        ⟨.ok socket.into, [.socketNew (domainOf addr), .connectPlain socket addr], self⟩

/-- The `io::Error` built in `connect` for a scheme other than `"http"`. -/
def invalid_scheme_error : IoError := ⟨.invalidInput, "invalid scheme for http"⟩

/-- The `io::Error` built in `connect` when resolution yields no
addresses (`last_err.unwrap_or_else(...)`). -/
def no_addresses_error : IoError := ⟨.invalidInput, "could not resolve to any addresses"⟩

/-- The `for addr in ... { match self.connect_once(addr) { ... } }` loop of
`connect`, together with the trailing
`Err(last_err.unwrap_or_else(...).into())`.  `last_err` is the accumulator
holding the most recent attempt's error. -/
def connectLoop (env : Env) (self : HttpTimeoutConnector) :
    List SocketAddr → Option IoError → MRes (Except HyperError HttpStream)
  | [], last_err =>
    ⟨.error (.ioError (last_err.getD no_addresses_error)), [], self⟩
  | addr :: rest, _last_err =>
    match HttpTimeoutConnector.connect_once env self addr with
    | ⟨.ok l, tr, st⟩ => ⟨.ok ⟨l⟩, tr, st⟩
    | ⟨.error e, tr, st⟩ =>
      let m' := connectLoop env st rest (some e)
      ⟨m'.res, tr ++ m'.trace, m'.state⟩

/-- `<HttpTimeoutConnector as NetworkConnector>::connect`: reject any
scheme other than `"http"`, resolve `(host, port)` (`?` propagates a
resolution error), then run the per-address loop with `last_err`
initially `None`. -/
def HttpTimeoutConnector.connect (env : Env) (self : HttpTimeoutConnector)
    (host : String) (port : Nat) (scheme : String) :
    MRes (Except HyperError HttpStream) :=
  if scheme ≠ "http" then
    ⟨.error (.ioError invalid_scheme_error), [], self⟩
  else
    match env.toSocketAddrs host port with
    | .error e => ⟨.error (.ioError e), [.resolve host port], self⟩
    | .ok addrs =>
      ⟨(connectLoop env self addrs none).res,
        .resolve host port :: (connectLoop env self addrs none).trace,
        (connectLoop env self addrs none).state⟩

/-! ## Helper lemmas -/

/-- `connect_once` takes `&self`: the connector state passes through
unchanged. -/
theorem connect_once_state (env : Env) (self : HttpTimeoutConnector)
    (addr : SocketAddr) :
    (HttpTimeoutConnector.connect_once env self addr).state = self := by
  unfold HttpTimeoutConnector.connect_once
  repeat' split
  all_goals rfl

/-- The per-address loop takes `&self`: the state passes through. -/
theorem connectLoop_state (env : Env) (self : HttpTimeoutConnector)
    (addrs : List SocketAddr) (last_err : Option IoError) :
    (connectLoop env self addrs last_err).state = self := by
  induction addrs generalizing self last_err with
  | nil => rfl
  | cons addr rest ih =>
    simp only [connectLoop]
    split
    next l tr st hm =>
      have hst := connect_once_state env self addr
      rw [hm] at hst
      exact hst
    next e tr st hm =>
      have hst := connect_once_state env self addr
      rw [hm] at hst
      simp only [MRes.state] at hst ⊢
      rw [ih st (some e), hst]

/-- `connect` with a scheme other than `"http"` returns the invalid-scheme
error with an empty trace, before any collaborator call. -/
theorem connect_scheme_ne (env : Env) (self : HttpTimeoutConnector)
    (host : String) (port : Nat) (scheme : String) (h : scheme ≠ "http") :
    HttpTimeoutConnector.connect env self host port scheme =
      ⟨.error (.ioError invalid_scheme_error), [], self⟩ := by
  unfold HttpTimeoutConnector.connect
  rw [if_pos h]

/-- `connect` with scheme `"http"` and a failing resolver propagates the
resolution error, with only the resolver call in the trace. -/
theorem connect_resolve_error (env : Env) (self : HttpTimeoutConnector)
    (host : String) (port : Nat) (e : IoError)
    (h : env.toSocketAddrs host port = .error e) :
    HttpTimeoutConnector.connect env self host port "http" =
      ⟨.error (.ioError e), [.resolve host port], self⟩ := by
  unfold HttpTimeoutConnector.connect
  rw [if_neg (by simp), h]

/-- `connect` with scheme `"http"` and a successful resolution runs the
per-address loop on the resolved list, after the resolver call. -/
theorem connect_resolve_ok (env : Env) (self : HttpTimeoutConnector)
    (host : String) (port : Nat) (addrs : List SocketAddr)
    (h : env.toSocketAddrs host port = .ok addrs) :
    HttpTimeoutConnector.connect env self host port "http" =
      ⟨(connectLoop env self addrs none).res,
        .resolve host port :: (connectLoop env self addrs none).trace,
        (connectLoop env self addrs none).state⟩ := by
  unfold HttpTimeoutConnector.connect
  rw [if_neg (by simp), h]

/-- A sample environment: resolution yields no addresses and every
transport operation succeeds. -/
def envEmpty : Env where
  toSocketAddrs := fun _ _ => .ok []
  socketNew := fun _ => .ok ⟨0⟩
  connectTimeout := fun _ _ _ => .ok ()
  connectPlain := fun _ _ => .ok ()

/-! ## Claims -/

/-- C1: for every host, port and scheme, if the scheme is not exactly
`"http"`, `connect` fails immediately with the InvalidInput-kind
invalid-scheme error, and the trace is empty: the resolver is never
invoked and no per-address attempt happens. -/
theorem C1_invalid_scheme_short_circuits (env : Env) (self : HttpTimeoutConnector)
    (host : String) (port : Nat) (scheme : String) (h : scheme ≠ "http") :
    HttpTimeoutConnector.connect env self host port scheme =
      ⟨.error (.ioError invalid_scheme_error), [], self⟩ ∧
    invalid_scheme_error.kind = .invalidInput :=
  ⟨connect_scheme_ne env self host port scheme h, rfl⟩

/-- Witness for C1 at the concrete scheme `"https"`. -/
theorem C1_invalid_scheme_short_circuits_witness :
    HttpTimeoutConnector.connect envEmpty HttpTimeoutConnector.new "example.com" 80 "https" =
      ⟨.error (.ioError invalid_scheme_error), [], HttpTimeoutConnector.new⟩ ∧
    invalid_scheme_error.kind = .invalidInput :=
  C1_invalid_scheme_short_circuits envEmpty HttpTimeoutConnector.new "example.com" 80 "https"
    (by decide)

/-- C4: with scheme `"http"`, if resolution succeeds with an empty address
list, `connect` fails with the dedicated InvalidInput error whose message
is "could not resolve to any addresses", and the trace holds only the
resolver call: no per-address attempt was made, so the error cannot be a
connection error, and resolution succeeded, so it is not a resolution
failure. -/
theorem C4_empty_resolution_error (env : Env) (self : HttpTimeoutConnector)
    (host : String) (port : Nat)
    (h : env.toSocketAddrs host port = .ok []) :
    HttpTimeoutConnector.connect env self host port "http" =
      ⟨.error (.ioError no_addresses_error), [.resolve host port], self⟩ ∧
    no_addresses_error = ⟨.invalidInput, "could not resolve to any addresses"⟩ :=
  ⟨connect_resolve_ok env self host port [] h, rfl⟩

/-- Witness for C4: a resolver that returns the empty list. -/
theorem C4_empty_resolution_error_witness :
    HttpTimeoutConnector.connect envEmpty HttpTimeoutConnector.new "example.com" 80 "http" =
      ⟨.error (.ioError no_addresses_error), [.resolve "example.com" 80],
        HttpTimeoutConnector.new⟩ ∧
    no_addresses_error = ⟨.invalidInput, "could not resolve to any addresses"⟩ :=
  C4_empty_resolution_error envEmpty HttpTimeoutConnector.new "example.com" 80 rfl

/-- C5: with scheme `"http"`, if the resolver itself fails with a lookup
error `e`, `connect` fails with exactly `e` (wrapped into the `Io` variant
of `hyper::Error` unmodified), and the trace holds only the resolver call:
no address attempt is made, so `e` is never merged with or replaced by a
connection error. -/
theorem C5_resolution_failure_propagates (env : Env) (self : HttpTimeoutConnector)
    (host : String) (port : Nat) (e : IoError)
    (h : env.toSocketAddrs host port = .error e) :
    HttpTimeoutConnector.connect env self host port "http" =
      ⟨.error (.ioError e), [.resolve host port], self⟩ :=
  connect_resolve_error env self host port e h

/-- A sample environment whose resolver fails with a lookup error. -/
def envLookupFail : Env where
  toSocketAddrs := fun _ _ => .error ⟨.otherKind 11, "lookup failed"⟩
  socketNew := fun _ => .ok ⟨0⟩
  connectTimeout := fun _ _ _ => .ok ()
  connectPlain := fun _ _ => .ok ()

/-- Witness for C5: a resolver failing with a concrete lookup error. -/
theorem C5_resolution_failure_propagates_witness :
    HttpTimeoutConnector.connect envLookupFail HttpTimeoutConnector.new "example.com" 80 "http" =
      ⟨.error (.ioError ⟨.otherKind 11, "lookup failed"⟩), [.resolve "example.com" 80],
        HttpTimeoutConnector.new⟩ :=
  C5_resolution_failure_propagates envLookupFail HttpTimeoutConnector.new "example.com" 80
    ⟨.otherKind 11, "lookup failed"⟩ rfl

/-- C8: a newly constructed connector has no timeout configured, and
`set_connect_timeout t` followed by reading `connect_timeout` returns
exactly `t`, for every optional duration `t` (including `none` and zero),
with no validation. -/
theorem C8_config_roundtrip :
    HttpTimeoutConnector.new.connect_timeout = none ∧
    ∀ (self : HttpTimeoutConnector) (t : Option Duration),
      (self.set_connect_timeout t).connect_timeout = t :=
  ⟨rfl, fun _ _ => rfl⟩

/-- C9: `connect` takes the connector by shared reference: whatever the
outcome, the connector state after the call is the one before it, so
`connect_timeout` reads the same value before and after. -/
theorem C9_connect_preserves_config (env : Env) (self : HttpTimeoutConnector)
    (host : String) (port : Nat) (scheme : String) :
    (HttpTimeoutConnector.connect env self host port scheme).state = self ∧
    (HttpTimeoutConnector.connect env self host port scheme).state.connect_timeout =
      self.connect_timeout := by
  have h : (HttpTimeoutConnector.connect env self host port scheme).state = self := by
    unfold HttpTimeoutConnector.connect
    split
    · rfl
    · split
      · rfl
      · exact connectLoop_state env self _ none
  exact ⟨h, by rw [h]⟩

/-- If every attempt on `pre` fails and the attempt on `a` succeeds with
stream `l`, the loop over `pre ++ a :: post` returns `HttpStream l` and its
trace is the concatenation of the attempt traces of `pre` followed by the
attempt trace of `a`: nothing of `post` is attempted. -/
theorem connectLoop_first_success (env : Env) (self : HttpTimeoutConnector)
    (pre : List SocketAddr) (a : SocketAddr) (post : List SocketAddr)
    (last_err : Option IoError) (l : TcpStream)
    (hpre : ∀ b ∈ pre, ∃ e, (HttpTimeoutConnector.connect_once env self b).res = .error e)
    (ha : (HttpTimeoutConnector.connect_once env self a).res = .ok l) :
    connectLoop env self (pre ++ a :: post) last_err =
      ⟨.ok ⟨l⟩,
        (pre.map fun b => (HttpTimeoutConnector.connect_once env self b).trace).flatten
          ++ (HttpTimeoutConnector.connect_once env self a).trace,
        self⟩ := by
  induction pre generalizing last_err with
  | nil =>
    have hst := connect_once_state env self a
    rcases hm : HttpTimeoutConnector.connect_once env self a with ⟨r, tr, st⟩
    rw [hm] at ha hst
    simp only at ha hst
    subst ha hst
    simp only [List.nil_append, List.map_nil, List.flatten_nil, connectLoop, hm]
  | cons b pre' ih =>
    obtain ⟨e, he⟩ := hpre b (List.mem_cons_self b pre')
    have hst := connect_once_state env self b
    rcases hm : HttpTimeoutConnector.connect_once env self b with ⟨r, tr, st⟩
    rw [hm] at he hst
    simp only at he hst
    subst he hst
    have ih' := ih (some e) (fun c hc => hpre c (List.mem_cons_of_mem b hc))
    simp only [List.cons_append, connectLoop, hm, List.append_eq, ih', List.map_cons,
      List.flatten_cons, List.append_assoc]

/-- If every attempt on `init` fails and the attempt on the final address
`a` fails with `e`, the loop over `init ++ [a]` fails with exactly `e`:
the accumulator keeps only the last error. -/
theorem connectLoop_all_fail (env : Env) (self : HttpTimeoutConnector)
    (init : List SocketAddr) (a : SocketAddr) (last_err : Option IoError) (e : IoError)
    (hinit : ∀ b ∈ init, ∃ e', (HttpTimeoutConnector.connect_once env self b).res = .error e')
    (hlast : (HttpTimeoutConnector.connect_once env self a).res = .error e) :
    (connectLoop env self (init ++ [a]) last_err).res = .error (.ioError e) := by
  induction init generalizing last_err with
  | nil =>
    have hst := connect_once_state env self a
    rcases hm : HttpTimeoutConnector.connect_once env self a with ⟨r, tr, st⟩
    rw [hm] at hlast hst
    simp only at hlast hst
    subst hlast hst
    simp only [List.nil_append, connectLoop, hm, Option.getD]
  | cons b init' ih =>
    obtain ⟨e', he⟩ := hinit b (List.mem_cons_self b init')
    have hst := connect_once_state env self b
    rcases hm : HttpTimeoutConnector.connect_once env self b with ⟨r, tr, st⟩
    rw [hm] at he hst
    simp only at he hst
    subst he hst
    have ih' := ih (some e') (fun c hc => hinit c (List.mem_cons_of_mem b hc))
    simp only [List.cons_append, connectLoop, hm, List.append_eq, ih']

/-- Every event in the loop's trace comes from the attempt on one of the
addresses of the list. -/
theorem connectLoop_trace_mem (env : Env) (self : HttpTimeoutConnector)
    (addrs : List SocketAddr) (last_err : Option IoError) (ev : Event)
    (h : ev ∈ (connectLoop env self addrs last_err).trace) :
    ∃ b ∈ addrs, ev ∈ (HttpTimeoutConnector.connect_once env self b).trace := by
  induction addrs generalizing last_err with
  | nil => simp [connectLoop] at h
  | cons addr rest ih =>
    have hst := connect_once_state env self addr
    rcases hm : HttpTimeoutConnector.connect_once env self addr with ⟨r, tr, st⟩
    rw [hm] at hst
    simp only at hst
    subst hst
    cases r with
    | ok l =>
      simp only [connectLoop, hm] at h
      exact ⟨addr, List.mem_cons_self addr rest, by rw [hm]; exact h⟩
    | error e =>
      simp only [connectLoop, hm] at h
      rcases List.mem_append.mp h with h1 | h2
      · exact ⟨addr, List.mem_cons_self addr rest, by rw [hm]; exact h1⟩
      · obtain ⟨b, hb, hmem⟩ := ih (some e) h2
        exact ⟨b, List.mem_cons_of_mem addr hb, hmem⟩

/-- Every event in a `connect` trace is the resolver call or comes from
the attempt on some address. -/
theorem connect_trace_mem (env : Env) (self : HttpTimeoutConnector)
    (host : String) (port : Nat) (scheme : String) (ev : Event)
    (h : ev ∈ (HttpTimeoutConnector.connect env self host port scheme).trace) :
    ev = .resolve host port ∨
      ∃ b, ev ∈ (HttpTimeoutConnector.connect_once env self b).trace := by
  unfold HttpTimeoutConnector.connect at h
  split at h
  · simp at h
  · split at h
    · simp only [MRes.trace, List.mem_singleton] at h
      exact Or.inl h
    · simp only [MRes.trace, List.mem_cons] at h
      rcases h with h | h
      · exact Or.inl h
      · obtain ⟨b, _, hmem⟩ := connectLoop_trace_mem env self _ none ev h
        exact Or.inr ⟨b, hmem⟩

/-- With a configured timeout `d` and a successful socket creation, the
attempt's trace is exactly: create a socket of the address family, then a
bounded connect with deadline `d` on this address. -/
theorem connect_once_trace_bounded (env : Env) (self : HttpTimeoutConnector)
    (addr : SocketAddr) (sock : Socket) (d : Duration)
    (hct : self.connect_timeout = some d)
    (hsock : env.socketNew (domainOf addr) = .ok sock) :
    (HttpTimeoutConnector.connect_once env self addr).trace =
      [.socketNew (domainOf addr), .connectTimeout sock addr d] := by
  unfold HttpTimeoutConnector.connect_once
  rw [hsock]
  dsimp only
  rw [hct]
  dsimp only
  cases env.connectTimeout sock addr d <;> rfl

/-- With no configured timeout and a successful socket creation, the
attempt's trace is exactly: create a socket of the address family, then an
unbounded connect on this address. -/
theorem connect_once_trace_plain (env : Env) (self : HttpTimeoutConnector)
    (addr : SocketAddr) (sock : Socket)
    (hct : self.connect_timeout = none)
    (hsock : env.socketNew (domainOf addr) = .ok sock) :
    (HttpTimeoutConnector.connect_once env self addr).trace =
      [.socketNew (domainOf addr), .connectPlain sock addr] := by
  unfold HttpTimeoutConnector.connect_once
  rw [hsock]
  dsimp only
  rw [hct]
  dsimp only
  cases env.connectPlain sock addr <;> rfl

/-- A bounded-connect event in an attempt's trace carries the configured
timeout and the attempt's own address. -/
theorem connect_once_bounded_event (env : Env) (self : HttpTimeoutConnector)
    (addr : SocketAddr) (s : Socket) (a : SocketAddr) (d' : Duration)
    (h : Event.connectTimeout s a d' ∈
      (HttpTimeoutConnector.connect_once env self addr).trace) :
    self.connect_timeout = some d' ∧ a = addr := by
  unfold HttpTimeoutConnector.connect_once at h
  cases hsock : env.socketNew (domainOf addr) with
  | error e => rw [hsock] at h; simp at h
  | ok socket =>
    rw [hsock] at h
    dsimp only at h
    cases hct : self.connect_timeout with
    | none =>
      rw [hct] at h
      dsimp only at h
      cases hcp : env.connectPlain socket addr <;> rw [hcp] at h <;> simp at h
    | some t =>
      rw [hct] at h
      dsimp only at h
      cases hcb : env.connectTimeout socket addr t <;> rw [hcb] at h <;> simp at h <;>
        exact ⟨by rw [h.2.2], h.2.1⟩

/-- The first event of every attempt is the creation of a socket whose
domain is the address family of the attempted address. -/
theorem connect_once_trace_head (env : Env) (self : HttpTimeoutConnector)
    (addr : SocketAddr) :
    (HttpTimeoutConnector.connect_once env self addr).trace.head? =
      some (.socketNew (domainOf addr)) := by
  unfold HttpTimeoutConnector.connect_once
  repeat' split
  all_goals rfl

/-- C2: with scheme `"http"` and resolution returning `pre ++ a :: post`,
if every attempt on `pre` fails and the attempt on `a` succeeds with
stream `l`, `connect` returns `l` wrapped as `HttpStream`, and its trace is
the resolver call followed by the traces of the attempts on `pre` in list
order and then the trace of the attempt on `a`: the addresses are tried
strictly in resolver order and nothing after the first success is
attempted. -/
theorem C2_first_success_in_order (env : Env) (self : HttpTimeoutConnector)
    (host : String) (port : Nat) (pre : List SocketAddr) (a : SocketAddr)
    (post : List SocketAddr) (l : TcpStream)
    (hres : env.toSocketAddrs host port = .ok (pre ++ a :: post))
    (hpre : ∀ b ∈ pre, ∃ e, (HttpTimeoutConnector.connect_once env self b).res = .error e)
    (ha : (HttpTimeoutConnector.connect_once env self a).res = .ok l) :
    (HttpTimeoutConnector.connect env self host port "http").res = .ok ⟨l⟩ ∧
    (HttpTimeoutConnector.connect env self host port "http").trace =
      .resolve host port ::
        ((pre.map fun b => (HttpTimeoutConnector.connect_once env self b).trace).flatten
          ++ (HttpTimeoutConnector.connect_once env self a).trace) := by
  rw [connect_resolve_ok env self host port _ hres,
    connectLoop_first_success env self pre a post none l hpre ha]
  exact ⟨rfl, rfl⟩

/-- An environment for exercising the dial loop: three addresses resolve,
connecting to the first is refused, the rest succeed. -/
def envRefuseFirst : Env where
  toSocketAddrs := fun _ _ => .ok [.V4 0, .V4 1, .V4 2]
  socketNew := fun _ => .ok ⟨7⟩
  connectTimeout := fun _ _ _ => .ok ()
  connectPlain := fun _ addr =>
    if addr = .V4 0 then .error ⟨.connectionRefused, "connection refused"⟩ else .ok ()

/-- Witness for C2: the first address is refused, the second succeeds, the
third is never attempted. -/
theorem C2_first_success_in_order_witness :
    (HttpTimeoutConnector.connect envRefuseFirst HttpTimeoutConnector.new
        "example.com" 80 "http").res = .ok ⟨⟨⟨7⟩⟩⟩ ∧
    (HttpTimeoutConnector.connect envRefuseFirst HttpTimeoutConnector.new
        "example.com" 80 "http").trace =
      .resolve "example.com" 80 ::
        ((([SocketAddr.V4 0]).map fun b =>
            (HttpTimeoutConnector.connect_once envRefuseFirst HttpTimeoutConnector.new b).trace).flatten
          ++ (HttpTimeoutConnector.connect_once envRefuseFirst HttpTimeoutConnector.new
              (.V4 1)).trace) :=
  C2_first_success_in_order envRefuseFirst HttpTimeoutConnector.new "example.com" 80
    [.V4 0] (.V4 1) [.V4 2] ⟨⟨7⟩⟩ rfl
    (fun b hb => by
      simp only [List.mem_singleton] at hb
      subst hb
      exact ⟨⟨.connectionRefused, "connection refused"⟩, rfl⟩)
    rfl

/-- C3: with scheme `"http"`, a non-empty resolved list `init ++ [a]`, and
every attempt failing, `connect` fails with exactly the error of the last
attempted address `a`, unchanged; the errors of the earlier attempts are
overwritten. -/
theorem C3_last_error_surfaced (env : Env) (self : HttpTimeoutConnector)
    (host : String) (port : Nat) (init : List SocketAddr) (a : SocketAddr) (e : IoError)
    (hres : env.toSocketAddrs host port = .ok (init ++ [a]))
    (hinit : ∀ b ∈ init, ∃ e', (HttpTimeoutConnector.connect_once env self b).res = .error e')
    (hlast : (HttpTimeoutConnector.connect_once env self a).res = .error e) :
    (HttpTimeoutConnector.connect env self host port "http").res = .error (.ioError e) := by
  rw [connect_resolve_ok env self host port _ hres]
  exact connectLoop_all_fail env self init a none e hinit hlast

/-- An environment where every address fails to connect, each with a
different error: the first is refused, any other times out. -/
def envAllFail : Env where
  toSocketAddrs := fun _ _ => .ok [.V4 0, .V4 1]
  socketNew := fun _ => .ok ⟨3⟩
  connectTimeout := fun _ _ _ => .ok ()
  connectPlain := fun _ addr =>
    if addr = .V4 0 then .error ⟨.connectionRefused, "connection refused"⟩
    else .error ⟨.timedOut, "connection timed out"⟩

/-- Witness for C3: both addresses fail; the caller sees the second
address's timed-out error, not the first address's refused error. -/
theorem C3_last_error_surfaced_witness :
    (HttpTimeoutConnector.connect envAllFail HttpTimeoutConnector.new
        "example.com" 80 "http").res =
      .error (.ioError ⟨.timedOut, "connection timed out"⟩) :=
  C3_last_error_surfaced envAllFail HttpTimeoutConnector.new "example.com" 80
    [.V4 0] (.V4 1) ⟨.timedOut, "connection timed out"⟩ rfl
    (fun b hb => by
      simp only [List.mem_singleton] at hb
      subst hb
      exact ⟨⟨.connectionRefused, "connection refused"⟩, rfl⟩)
    rfl

/-- C6: when a timeout `d` is configured, every attempt is a bounded
connect with exactly the deadline `d`, fresh for its own address; when no
timeout is configured, every attempt is an unbounded connect and the
bounded operation is never invoked.  Stated as: (1) the attempt trace
under `some d` is socket creation then a bounded connect with `d`; (2) the
attempt trace under `none` is socket creation then an unbounded connect;
(3) any bounded-connect event in a full `connect` trace carries the
configured timeout; (4) under `none`, no `connect` trace contains a
bounded-connect event. -/
theorem C6_per_address_timeout (env : Env) (self : HttpTimeoutConnector) :
    (∀ addr sock d, self.connect_timeout = some d →
      env.socketNew (domainOf addr) = .ok sock →
      (HttpTimeoutConnector.connect_once env self addr).trace =
        [.socketNew (domainOf addr), .connectTimeout sock addr d]) ∧
    (∀ addr sock, self.connect_timeout = none →
      env.socketNew (domainOf addr) = .ok sock →
      (HttpTimeoutConnector.connect_once env self addr).trace =
        [.socketNew (domainOf addr), .connectPlain sock addr]) ∧
    (∀ host port scheme s a d',
      Event.connectTimeout s a d' ∈
          (HttpTimeoutConnector.connect env self host port scheme).trace →
      self.connect_timeout = some d') ∧
    (∀ host port scheme s a d', self.connect_timeout = none →
      Event.connectTimeout s a d' ∉
        (HttpTimeoutConnector.connect env self host port scheme).trace) := by
  have hbound : ∀ host port scheme s a d',
      Event.connectTimeout s a d' ∈
          (HttpTimeoutConnector.connect env self host port scheme).trace →
      self.connect_timeout = some d' := by
    intro host port scheme s a d' hmem
    rcases connect_trace_mem env self host port scheme _ hmem with h | ⟨b, hb⟩
    · exact Event.noConfusion h
    · exact (connect_once_bounded_event env self b s a d' hb).1
  refine ⟨fun addr sock d hct hsock =>
      connect_once_trace_bounded env self addr sock d hct hsock,
    fun addr sock hct hsock => connect_once_trace_plain env self addr sock hct hsock,
    hbound,
    fun host port scheme s a d' hct hmem => ?_⟩
  rw [hbound host port scheme s a d' hmem] at hct
  exact Option.noConfusion hct

/-- Witness for C6: a bounded attempt with deadline 5, an unbounded
attempt, and the absence of bounded-connect events in a full call without
a configured timeout. -/
theorem C6_per_address_timeout_witness :
    (HttpTimeoutConnector.connect_once envEmpty ⟨some 5⟩ (.V4 0)).trace =
      [.socketNew .ipv4, .connectTimeout ⟨0⟩ (.V4 0) 5] ∧
    (HttpTimeoutConnector.connect_once envEmpty HttpTimeoutConnector.new (.V6 3)).trace =
      [.socketNew .ipv6, .connectPlain ⟨0⟩ (.V6 3)] ∧
    Event.connectTimeout ⟨0⟩ (.V4 0) 5 ∉
      (HttpTimeoutConnector.connect envEmpty HttpTimeoutConnector.new
        "example.com" 80 "http").trace :=
  ⟨(C6_per_address_timeout envEmpty ⟨some 5⟩).1 (.V4 0) ⟨0⟩ 5 rfl rfl,
   (C6_per_address_timeout envEmpty HttpTimeoutConnector.new).2.1 (.V6 3) ⟨0⟩ rfl rfl,
   (C6_per_address_timeout envEmpty HttpTimeoutConnector.new).2.2.2
     "example.com" 80 "http" ⟨0⟩ (.V4 0) 5 rfl⟩

/-- C7: every attempt begins by requesting from the socket factory a
socket of the family implied by the attempted address: IPv4 addresses
yield an IPv4-domain request and IPv6 addresses an IPv6-domain request. -/
theorem C7_socket_family_matches (env : Env) (self : HttpTimeoutConnector) :
    (∀ n, (HttpTimeoutConnector.connect_once env self (.V4 n)).trace.head? =
      some (.socketNew .ipv4)) ∧
    (∀ n, (HttpTimeoutConnector.connect_once env self (.V6 n)).trace.head? =
      some (.socketNew .ipv6)) :=
  ⟨fun n => connect_once_trace_head env self (.V4 n),
   fun n => connect_once_trace_head env self (.V6 n)⟩

/-- C10: the invalid-scheme error and the empty-resolution error returned
by `connect` share the error kind InvalidInput and differ only in their
message text, so a caller can distinguish them only by message. -/
theorem C10_shared_invalid_input_kind (env : Env) (self : HttpTimeoutConnector)
    (host : String) (port : Nat) :
    (∀ scheme, scheme ≠ "http" →
      (HttpTimeoutConnector.connect env self host port scheme).res =
        .error (.ioError invalid_scheme_error)) ∧
    (env.toSocketAddrs host port = .ok [] →
      (HttpTimeoutConnector.connect env self host port "http").res =
        .error (.ioError no_addresses_error)) ∧
    invalid_scheme_error.kind = no_addresses_error.kind ∧
    invalid_scheme_error.kind = .invalidInput ∧
    invalid_scheme_error.msg ≠ no_addresses_error.msg := by
  refine ⟨fun scheme h => ?_, fun h => ?_, rfl, rfl, by decide⟩
  · rw [connect_scheme_ne env self host port scheme h]
  · rw [connect_resolve_ok env self host port [] h]
    rfl

/-- Witness for C10: an invalid scheme and an empty resolution at concrete
inputs, plus the message distinction. -/
theorem C10_shared_invalid_input_kind_witness :
    (HttpTimeoutConnector.connect envEmpty HttpTimeoutConnector.new
        "example.com" 80 "ftp").res = .error (.ioError invalid_scheme_error) ∧
    (HttpTimeoutConnector.connect envEmpty HttpTimeoutConnector.new
        "example.com" 80 "http").res = .error (.ioError no_addresses_error) ∧
    invalid_scheme_error.msg ≠ no_addresses_error.msg :=
  ⟨(C10_shared_invalid_input_kind envEmpty HttpTimeoutConnector.new "example.com" 80).1
      "ftp" (by decide),
   (C10_shared_invalid_input_kind envEmpty HttpTimeoutConnector.new "example.com" 80).2.1 rfl,
   (C10_shared_invalid_input_kind envEmpty HttpTimeoutConnector.new "example.com" 80).2.2.2.2⟩
